import Mathlib

/-!
Shallow embedding of the mudur boot/shutdown orchestrator
(`bin/mudur.py`, `bin/mudur_cgroupfs.py`).

Python strings are modelled as Lean `String`s with the relevant Python
string primitives (`split`, `find`, `startswith`, substring membership,
lexicographic comparison by code point) reimplemented executably over
`String.data : List Char`, so that every definition evaluates inside the
kernel.  Python dictionaries keyed by strings are modelled as functions
`String → Option _` (per-key lookup; an update writes one key).  I/O
results (file contents, command exit statuses, filesystem facts) are
passed in as explicit parameters.
-/

namespace Mudur

/-- Python `s.startswith(p)`, on character lists. -/
def startsWithL : List Char → List Char → Bool
  | [], _ => true
  | _ :: _, [] => false
  | a :: p, b :: l => a == b && startsWithL p l

/-- Python substring membership `sub in s`, on character lists. -/
def containsSub (sub : List Char) : List Char → Bool
  | [] => startsWithL sub []
  | c :: l => startsWithL sub (c :: l) || containsSub sub l

/-- Helper for Python `s.find(sub)`: index of the first match, scanning
from offset `i`. -/
def pyFindAux (sub : List Char) : List Char → Nat → Option Nat
  | [], i => if startsWithL sub [] then some i else none
  | c :: l, i => if startsWithL sub (c :: l) then some i else pyFindAux sub l (i + 1)

/-- Python `s.find(sub)`: first index of `sub` in `s`, or `-1`. -/
def pyFind (s sub : String) : Int :=
  match pyFindAux sub.data s.data 0 with
  | some i => (i : Int)
  | none => -1

/-- Split a character list at every character satisfying `p`, keeping
empty pieces — the semantics of Python `s.split(sep)` for a one-character
separator (`"".split(sep) == [""]`). -/
def splitCh (p : Char → Bool) : List Char → List (List Char)
  | [] => [[]]
  | c :: cs =>
      if p c then [] :: splitCh p cs
      else
        match splitCh p cs with
        | [] => [[c]]
        | l :: ls => (c :: l) :: ls

/-- Python `s.split("\n")`. -/
def pySplitNL (l : List Char) : List (List Char) :=
  splitCh (· == '\n') l

/-- Python's whitespace set for bare `s.split()`. -/
def isPyWs (c : Char) : Bool :=
  c == ' ' || c == '\t' || c == '\n' || c == '\r' || c == '\x0b' || c == '\x0c'

/-- Python bare `s.split()`: split on whitespace runs, dropping empty
pieces. -/
def pySplitWS (l : List Char) : List (List Char) :=
  (splitCh isPyWs l).filter (fun w => !w.isEmpty)

/-- Python `s.split(sep, 1)` for a one-character separator: split at the
first occurrence only; `none` when the separator does not occur. -/
def splitOnce (sep : Char) : List Char → Option (List Char × List Char)
  | [] => none
  | c :: cs =>
      if c == sep then some ([], cs)
      else (splitOnce sep cs).map (fun q => (c :: q.1, q.2))

/-- Python `"\n".join(pieces)`, on character lists. -/
def joinNL : List (List Char) → List Char
  | [] => []
  | [l] => l
  | l :: ls => l ++ '\n' :: joinNL ls

/-- Python string `<` (lexicographic by code point), on character lists. -/
def pyStrLtL : List Char → List Char → Bool
  | [], [] => false
  | [], _ :: _ => true
  | _ :: _, [] => false
  | a :: as, b :: bs =>
      if a.toNat < b.toNat then true
      else if b.toNat < a.toNat then false
      else pyStrLtL as bs

/-- Python string `<=`, on character lists: `l <= m` iff `¬ m < l`. -/
def pyStrLeL (l m : List Char) : Bool :=
  !pyStrLtL m l

/-! ## `load_file` (`bin/mudur.py:79`)

Reads a file, dropping empty lines and lines starting with `#`.  The file
state is an `Option String`: `none` is a file whose `open` raises
`IOError`, `some data` is a readable file with contents `data`. -/

/-- Function `load_file` from `bin/mudur.py:79`: on `IOError` return `""`;
otherwise join with newlines the lines that are nonempty (Python
truthiness of a string) and do not start with `#`. -/
def load_file (file : Option String) : String :=
  match file with
  | none => ""
  | some data =>
      ⟨joinNL ((pySplitNL data.data).filter
        (fun line => !line.isEmpty && !startsWithL "#".data line))⟩

/-- The behaviour the specification ascribes to `load_file`, written from
the spec's words: the empty string when the file cannot be opened,
otherwise the content with empty lines and lines starting with `#`
removed, joined by newlines. -/
def loadFileSpec (file : Option String) : String :=
  match file with
  | none => ""
  | some data =>
      ⟨joinNL ((pySplitNL data.data).filter
        (fun line => !(line.isEmpty || startsWithL "#".data line)))⟩

/-! ## Kernel command line options (`bin/mudur.py:157`) -/

/-- Function `get_kernel_option` from `bin/mudur.py:157`: the kernel command line
is a list of whitespace-split tokens; each token `optname=optargs` (or a
bare `optname`, with empty `optargs`) whose name equals `option`
contributes its comma-separated fragments, each parsed as `key:value` or
as a bare key mapping to `""`.  The resulting dictionary is modelled as a
lookup function; later fragments overwrite earlier ones, as in a Python
dict. -/
def get_kernel_option (cmdline : List String) (option : String) :
    String → Option String :=
  cmdline.foldl
    (fun args cmd =>
      let p := splitOnce '=' cmd.data
      let optname : String := match p with | some q => ⟨q.1⟩ | none => cmd
      let optargs : List Char := match p with | some q => q.2 | none => []
      if optname = option then
        (splitCh (· == ',') optargs).foldl
          (fun args2 arg =>
            match splitOnce ':' arg with
            | some q => fun x => if x = (⟨q.1⟩ : String) then some ⟨q.2⟩ else args2 x
            | none => fun x => if x = (⟨arg⟩ : String) then some "" else args2 x)
          args
      else args)
    (fun _ => none)

/-- A value held in the mudur option dictionary: a string, a boolean, or
Python `None`. -/
inductive PyVal where
  | vStr (s : String)
  | vBool (b : Bool)
  | vNone
  deriving DecidableEq, Repr

/-- The built-in option defaults from `Config.__init__`
(`bin/mudur.py:339`). -/
def mudurDefaults : String → Option PyVal := fun k =>
  if k = "language" then some (.vStr "en")
  else if k = "clock" then some (.vStr "local")
  else if k = "clock_adjust" then some (.vStr "no")
  else if k = "tty_number" then some (.vStr "6")
  else if k = "lxc_guest" then some (.vStr "no")
  else if k = "keymap" then some .vNone
  else if k = "debug" then some (.vBool true)
  else if k = "live" then some (.vBool false)
  else if k = "safe" then some (.vBool false)
  else if k = "forcefsck" then some (.vBool false)
  else if k = "head_start" then some (.vStr "")
  else if k = "services" then some (.vStr "")
  else none

/-- The option resolution of `Config.__init__` and
`Config.parse_kernel_options` up to the language/keymap normalization
(`bin/mudur.py:338-376`), as a per-key lookup.  In order the source:
(1) starts from the defaults, (2) overwrites with the parsed config file
(`cfg`; when the file is absent the update is skipped, i.e. `cfg` is the
empty dictionary), (3) sets `forcefsck` to whether the `/forcefsck`
sentinel file exists, (4) sets `live` to whether the cmdline has a `thin`
fragment or the livemedia marker exists, and (5) for every cmdline key
`_k` passing the source's filter `_k not in ("thin")` — which in Python
is a *substring* test against the string `"thin"` — stores the cmdline
value, a truthy (nonempty) value as a string and a falsy one as `True`.
`cmd` is the dictionary returned by `get_kernel_option` for `mudur`. -/
def mergedOptions (cfg cmd : String → Option String)
    (livemediaExists sentinelExists : Bool) : String → Option PyVal := fun k =>
  let afterConfig : Option PyVal :=
    match cfg k with
    | some v => some (.vStr v)
    | none => mudurDefaults k
  let afterSentinel : Option PyVal :=
    if k = "forcefsck" then some (.vBool sentinelExists) else afterConfig
  let afterLive : Option PyVal :=
    if k = "live" then some (.vBool ((cmd "thin").isSome || livemediaExists))
    else afterSentinel
  match cmd k with
  | some v =>
      if containsSub k.data "thin".data then afterLive
      else some (if v ≠ "" then .vStr v else .vBool true)
  | none => afterLive

/-- Concrete config-file dictionary used to exercise `mergedOptions`:
it sets the single key `"in"` to `"y"`. -/
def cfgWithIn : String → Option String := fun k =>
  if k = "in" then some "y" else none

/-- Concrete kernel-cmdline dictionary used to exercise `mergedOptions`:
it sets the single key `"in"` to `"x"`. -/
def cmdWithIn : String → Option String := fun k =>
  if k = "in" then some "x" else none

/-! ## Language table and normalization (`bin/mudur.py:531-561,380-392`) -/

/-- The `Language` record from `bin/mudur.py:531`. -/
structure Language where
  keymap : String
  font : String
  trans : String
  locale : String
  deriving DecidableEq, Repr

/-- The static `LANGUAGES` table from `bin/mudur.py:546`, as a lookup. -/
def LANGUAGES : String → Option Language := fun k =>
  if k = "ca" then some ⟨"es", "iso01.16", "8859-1", "ca_ES.UTF-8"⟩
  else if k = "de" then some ⟨"de", "iso01.16", "8859-1", "de_DE.UTF-8"⟩
  else if k = "en" then some ⟨"us", "iso01.16", "8859-1", "en_US.UTF-8"⟩
  else if k = "es" then some ⟨"es", "iso01.16", "8859-1", "es_ES.UTF-8"⟩
  else if k = "fr" then some ⟨"fr", "iso01.16", "8859-1", "fr_FR.UTF-8"⟩
  else if k = "hu" then some ⟨"hu", "lat2a-16", "8859-2", "hu_HU.UTF-8"⟩
  else if k = "it" then some ⟨"it", "iso01.16", "8859-1", "it_IT.UTF-8"⟩
  else if k = "nl" then some ⟨"nl", "iso01.16", "8859-1", "nl_NL.UTF-8"⟩
  else if k = "pl" then some ⟨"pl", "iso02.16", "8859-2", "pl_PL.UTF-8"⟩
  else if k = "pt_BR" then some ⟨"br-abnt2", "iso01.16", "8859-1", "pt_BR.UTF-8"⟩
  else if k = "ru" then some ⟨"ru", "Cyr_a8x16", "8859-5", "ru_RU.UTF-8"⟩
  else if k = "sv" then some ⟨"sv-latin1", "lat0-16", "8859-1", "sv_SE.UTF-8"⟩
  else if k = "tr" then some ⟨"trq", "lat5u-16", "8859-9", "tr_TR.UTF-8"⟩
  else none

/-- The language normalization at `bin/mudur.py:384-388`: a language not
in `LANGUAGES` falls back to `"en"` (with a logged warning). -/
def normalizedLanguage (lang : String) : String :=
  if (LANGUAGES lang).isSome then lang else "en"

/-- The keymap normalization at `bin/mudur.py:390-392`: when the stored
keymap value is falsy (Python `None` or `""`), replace it with the
resolved language's table keymap.  The table lookup is total here because
`normalizedLanguage` always lands in the table; `none` models the
`KeyError` that a lookup miss would raise. -/
def resolvedKeymap (keymap : Option String) (lang : String) : Option String :=
  if keymap = none ∨ keymap = some "" then
    (LANGUAGES (normalizedLanguage lang)).map (·.keymap)
  else keymap

/-! ## fsck exit-code ladders (`bin/mudur.py:897-934,978-1007`)

The observable actions of the two checkers are modelled as traces; a
procedure additionally reports a terminal outcome.  `rebooted` and
`rescue` are terminal: in the source, control never returns from
`/sbin/reboot -f` or `/sbin/sulogin` (the process is replaced or blocks
in the rescue shell). -/

/-- One observable action of a filesystem-check procedure. -/
inductive Act where
  | warn
  | error
  | beep
  | sleep (seconds : Nat)
  | reboot
  | sulogin
  deriving DecidableEq, Repr

/-- Terminal outcome of a filesystem-check procedure. -/
inductive Outcome where
  | continued
  | rebooted
  | rescue
  deriving DecidableEq, Repr

/-- The `while i < 4` beep loop of `check_root_filesystem`
(`bin/mudur.py:921-925`): `n` iterations of printing `"\x07"` then
sleeping one second. -/
def beepLoop : Nat → List Act
  | 0 => []
  | n + 1 => Act.beep :: Act.sleep 1 :: beepLoop n

/-- The exit-code ladder of `check_root_filesystem`
(`bin/mudur.py:913-934`), as a function of the fsck exit status:
`0` falls through; `2` or `3` warns, beeps four times at one-second
intervals, warns, sleeps 10 seconds, warns and force-reboots; anything
else reports an error and execs the rescue shell `/sbin/sulogin`. -/
def check_root_filesystem (ret : Nat) : Outcome × List Act :=
  if ret = 0 then (.continued, [])
  else if ret = 2 ∨ ret = 3 then
    (.rebooted,
      Act.warn :: beepLoop 4 ++ [Act.warn, Act.sleep 10, Act.warn, Act.reboot])
  else (.rescue, [Act.error, Act.sulogin])

/-- The exit-code ladder of `check_filesystems` (`bin/mudur.py:1000-1007`):
`0` falls through; `2 <= ret <= 3` only warns and continues; anything
else reports an error and execs the rescue shell. -/
def check_filesystems (ret : Nat) : Outcome × List Act :=
  if ret = 0 then (.continued, [])
  else if 2 ≤ ret ∧ ret ≤ 3 then (.continued, [Act.warn])
  else (.rescue, [Act.error, Act.sulogin])

/-! ## Shutdown unmount ordering (`bin/mudur.py:1240-1252`) -/

/-- The pseudo-filesystem types ignored by `get_fs_entries`
(`bin/mudur.py:1244`). -/
def vfsTypes : List String :=
  ["proc", "devpts", "sysfs", "devtmpfs", "squashfs",
   "tmpfs", "rootfs", "debugfs", "cgroup", "configfs"]

/-- The sort key of `get_fs_entries`: the mountpoint field `x[1]`. -/
def mountpointOf (fields : List String) : String :=
  fields.getD 1 ""

/-- One step of the source's `entries.sort(key=lambda x: x[1],
reverse=True)`: insert `a` into an already descending-sorted list,
placing it before the first entry whose mountpoint is `<=` its own
(which also reproduces the stability of Python's sort). -/
def insertEntryDesc (a : List String) : List (List String) → List (List String)
  | [] => [a]
  | b :: l =>
      if pyStrLeL (mountpointOf b).data (mountpointOf a).data then a :: b :: l
      else b :: insertEntryDesc a l

/-- The sort `entries.sort(key=lambda x: x[1], reverse=True)` from
`bin/mudur.py:1251`: a stable sort by mountpoint, descending in Python's
string order. -/
def sortEntriesDesc : List (List String) → List (List String)
  | [] => []
  | a :: l => insertEntryDesc a (sortEntriesDesc l)

/-- Function `get_fs_entries` from `bin/mudur.py:1240-1252`: split `/proc/mounts`
into lines, split each line into whitespace-separated fields, keep the
entries with more than two fields whose fstype is not an API filesystem,
whose device is not `"none"` and whose mountpoint is not `"/"`, then
sort by mountpoint descending. -/
def get_fs_entries (procMounts : String) : List (List String) :=
  let entries : List (List String) :=
    (pySplitNL procMounts.data).foldr
      (fun entry acc =>
        let fields : List String := (pySplitWS entry).map (fun w => (⟨w⟩ : String))
        if decide (fields.length > 2)
            && !(vfsTypes.contains (fields.getD 2 ""))
            && fields.getD 0 "" != "none"
            && fields.getD 1 "" != "/" then
          fields :: acc
        else acc)
      []
  sortEntriesDesc entries

/-- The concrete `/proc/mounts` contents of the specification's
shutdown-ordering test: real mounts at `/data`, `/data/nested` and
`/mnt`, together with the root mount and an API filesystem, which
`get_fs_entries` must drop. -/
def threeM : String :=
  "/dev/sda2 /data ext4 rw 0 0\n/dev/sda3 /data/nested ext4 rw 0 0\n/dev/sda4 /mnt ext4 rw 0 0\nproc /proc proc rw 0 0\n/dev/root / ext4 rw 0 0"

/-! ## Shutdown remount ladder (`bin/mudur.py:1254-1302`) -/

/-- Function `remount_ro` from `bin/mudur.py:1254-1274`, as a function of the exit
status of the one command it runs (`umount -n -r /` when `force` is set,
`mount -n -o remount,ro /` otherwise; the root entry is assumed present
in `/proc/mounts`).  It returns the accumulated `ret` together with the
number of `killall5 -9` invocations it performed: one when `ret` is
truthy, zero otherwise. -/
def remount_ro (cmdExit : Nat) : Nat × Nat :=
  (cmdExit, if cmdExit ≠ 0 then 1 else 0)

/-- The final ladder of `stop_system` (`bin/mudur.py:1300-1302`):
`if remount_ro(): if remount_ro(): remount_ro(True)`, given the exit
statuses `e1`, `e2` of the two plain remount attempts and `e3` of the
forced unmount.  Returns the total number of `killall5 -9` invocations
performed. -/
def stop_system_final (e1 e2 e3 : Nat) : Nat :=
  let r1 := remount_ro e1
  if r1.1 ≠ 0 then
    let r2 := remount_ro e2
    if r2.1 ≠ 0 then r1.2 + r2.2 + (remount_ro e3).2
    else r1.2 + r2.2
  else r1.2

/-! ## Cgroup bootstrap (`bin/mudur_cgroupfs.py`) -/

/-- The `Controller` record from `bin/mudur_cgroupfs.py:11-16`. -/
structure Controller where
  subsysname : String
  hierarchy : Int
  num_cgroups : Int
  enabled : Int
  deriving DecidableEq, Repr

/-- Method `Controller.mount` from `bin/mudur_cgroupfs.py:18-27`, as a state
transition.  The world state is the list of controller names currently
mounted under `/sys/fs/cgroup`; `mountSucceeds` is the exit status of the
`mkdir/mount` shell command.  Returns the new state and the number of
mount commands issued: the command runs exactly when `enabled == 1` and
the controller's directory is not already a mountpoint. -/
def Controller.mountStep (c : Controller) (mounted : List String)
    (mountSucceeds : Bool) : List String × Nat :=
  if c.enabled = 1 then
    if mounted.contains c.subsysname then (mounted, 0)
    else ((if mountSucceeds then c.subsysname :: mounted else mounted), 1)
  else (mounted, 0)

/-- The controller-mount loop at the end of `Cgroupfs.__init__`
(`bin/mudur_cgroupfs.py:47-48`): run `mountStep` for every discovered
controller in turn, threading the mounted-set state and summing the
number of mount commands issued. -/
def mountAllControllers (cs : List (Controller × Bool)) (mounted : List String) :
    List String × Nat :=
  match cs with
  | [] => (mounted, 0)
  | (c, ok) :: rest =>
      let r := c.mountStep mounted ok
      let r2 := mountAllControllers rest r.1
      (r2.1, r.2 + r2.2)

/-- Method `Cgroupfs.check_fstab` from `bin/mudur_cgroupfs.py:50-58`, on the
list of fstab lines (as returned by `readlines`; lines are nonempty, so
the source's `line[0] == "#"` test is `startswith("#")`).  Faithful to
the source's truthiness slip: `if line.find("cgroup"):` is taken whenever
the find result is nonzero — in particular when it is `-1`, i.e. when
the line does **not** contain `"cgroup"` at offset 0. -/
def check_fstab (lines : List String) : Bool :=
  lines.foldl
    (fun found line =>
      if startsWithL "#".data line.data then found
      else if pyFind line "cgroup" ≠ 0 then true
      else found)
    false

/-- The guard condition at `bin/mudur_cgroupfs.py:33`: the source writes
`if self.check_fstab == True:`, comparing the *bound method object*
itself — not a call result — with `True`.  In Python a method object is
never equal to `True`, so this condition is constantly false, for every
fstab. -/
def check_fstab_method_eq_true : Bool := false

/-- Terminal outcome of `Cgroupfs.__init__` (`bin/mudur_cgroupfs.py:31-48`):
`sys.exit(-1)`, `sys.exit(-2)`, `sys.exit(-3)`, or completion of the
bootstrap. -/
inductive InitOutcome where
  | exitedFstab
  | exitedNoKernel
  | exitedNoSysfs
  | completed
  deriving DecidableEq, Repr

/-- The guard ladder of `Cgroupfs.__init__` (`bin/mudur_cgroupfs.py:33-43`),
given the fstab lines and whether `/proc/cgroups` and `/sys/fs/cgroup`
exist.  The fstab guard is `check_fstab_method_eq_true` — the source's
uncalled method comparison — so `fstabLines` is recorded but cannot
influence the outcome. -/
def cgroupfsInit (_fstabLines : List String) (kernelSupport sysfsExists : Bool) :
    InitOutcome :=
  if check_fstab_method_eq_true then .exitedFstab
  else if kernelSupport = false then .exitedNoKernel
  else if sysfsExists = false then .exitedNoSysfs
  else .completed

/-- A typical fstab static cgroup mount line. -/
def fstabCgroupLine : String := "cgroup /sys/fs/cgroup cgroup defaults 0 0"

/-- The order relation established by the descending mountpoint sort:
`x` may precede `y` when `x`'s mountpoint is not below `y`'s in Python's
string order. -/
def entGe (x y : List String) : Prop :=
  pyStrLtL (mountpointOf x).data (mountpointOf y).data = false

/-- Concrete config-file dictionary setting `clock=utc`. -/
def cfgClock : String → Option String := fun k =>
  if k = "clock" then some "utc" else none

/-- Concrete kernel-cmdline dictionary setting `clock:UTC`. -/
def cmdClock : String → Option String := fun k =>
  if k = "clock" then some "UTC" else none

/-- Concrete config-file dictionary setting `forcefsck=yes`. -/
def cfgForceYes : String → Option String := fun k =>
  if k = "forcefsck" then some "yes" else none

/-- A kernel-reported controller with `enabled == 1`. -/
def ctrlCpu : Controller := ⟨"cpu", 0, 1, 1⟩

/-- A kernel-reported controller with `enabled == 0`. -/
def ctrlFreezer : Controller := ⟨"freezer", 0, 1, 0⟩

/-! ## Order lemmas for the Python string comparison -/

/-- Python string `<` is asymmetric. -/
theorem pyStrLtL_asymm : ∀ l m : List Char,
    pyStrLtL l m = true → pyStrLtL m l = false
  | [], [], h => by simp [pyStrLtL] at h
  | [], _ :: _, _ => by simp [pyStrLtL]
  | _ :: _, [], h => by simp [pyStrLtL] at h
  | a :: as, b :: bs, h => by
      simp only [pyStrLtL] at h ⊢
      by_cases hab : a.toNat < b.toNat
      · have hba : ¬ b.toNat < a.toNat := by omega
        simp [hab, hba]
      · by_cases hba : b.toNat < a.toNat
        · simp [hab, hba] at h
        · simp only [hab, hba, if_false] at h ⊢
          exact pyStrLtL_asymm as bs h

/-- The negation of Python string `<` is transitive. -/
theorem pyStrLtL_ge_trans : ∀ a b c : List Char,
    pyStrLtL a b = false → pyStrLtL b c = false → pyStrLtL a c = false
  | [], [], _, _, h2 => h2
  | [], _ :: _, _, h1, _ => by simp [pyStrLtL] at h1
  | _ :: _, [], [], _, _ => by simp [pyStrLtL]
  | _ :: _, [], _ :: _, _, h2 => by simp [pyStrLtL] at h2
  | _ :: _, _ :: _, [], _, _ => by simp [pyStrLtL]
  | a :: as, b :: bs, c :: cs, h1, h2 => by
      simp only [pyStrLtL] at h1 h2 ⊢
      by_cases hab : a.toNat < b.toNat
      · simp [hab] at h1
      · by_cases hbc : b.toNat < c.toNat
        · simp [hbc] at h2
        · have hac : ¬ a.toNat < c.toNat := by omega
          by_cases hca : c.toNat < a.toNat
          · simp [hac, hca]
          · have hba : ¬ b.toNat < a.toNat := by omega
            have hcb : ¬ c.toNat < b.toNat := by omega
            simp only [hab, hba, if_false] at h1
            simp only [hbc, hcb, if_false] at h2
            simp only [hac, hca, if_false]
            exact pyStrLtL_ge_trans as bs cs h1 h2

/-- A string is strictly below any proper extension of itself in
Python's string order. -/
theorem pyStrLtL_append_cons : ∀ (l : List Char) (c : Char) (t : List Char),
    pyStrLtL l (l ++ c :: t) = true
  | [], _, _ => rfl
  | x :: l, c, t => by
      simp only [List.cons_append, pyStrLtL]
      rw [if_neg (Nat.lt_irrefl _), if_neg (Nat.lt_irrefl _)]
      exact pyStrLtL_append_cons l c t

/-! ## Sortedness of the shutdown unmount order -/

/-- Membership through `insertEntryDesc`. -/
theorem mem_insertEntryDesc {y a : List String} :
    ∀ l : List (List String), y ∈ insertEntryDesc a l → y = a ∨ y ∈ l
  | [], h => by simpa [insertEntryDesc] using h
  | b :: l, h => by
      simp only [insertEntryDesc] at h
      split at h
      · rcases List.mem_cons.mp h with rfl | h2
        · exact Or.inl rfl
        · exact Or.inr h2
      · rcases List.mem_cons.mp h with rfl | h2
        · exact Or.inr (List.mem_cons_self _ _)
        · rcases mem_insertEntryDesc l h2 with rfl | h3
          · exact Or.inl rfl
          · exact Or.inr (List.mem_cons_of_mem _ h3)

/-- Insertion by `insertEntryDesc` preserves descending sortedness. -/
theorem pairwise_insertEntryDesc (a : List String) :
    ∀ l : List (List String), l.Pairwise entGe →
      (insertEntryDesc a l).Pairwise entGe
  | [], _ => by simp [insertEntryDesc, List.pairwise_singleton]
  | b :: l, hp => by
      rcases List.pairwise_cons.mp hp with ⟨hb, hl⟩
      simp only [insertEntryDesc]
      by_cases hc : pyStrLeL (mountpointOf b).data (mountpointOf a).data = true
      · rw [if_pos hc]
        have hab : entGe a b := by
          unfold pyStrLeL at hc
          unfold entGe
          simpa using hc
        refine List.pairwise_cons.mpr ⟨?_, hp⟩
        intro y hy
        rcases List.mem_cons.mp hy with rfl | hyl
        · exact hab
        · exact pyStrLtL_ge_trans _ _ _ hab (hb y hyl)
      · rw [if_neg hc]
        refine List.pairwise_cons.mpr ⟨?_, pairwise_insertEntryDesc a l hl⟩
        intro y hy
        rcases mem_insertEntryDesc l hy with rfl | hyl
        · have hlt : pyStrLtL (mountpointOf y).data (mountpointOf b).data = true := by
            unfold pyStrLeL at hc
            simpa using hc
          exact pyStrLtL_asymm _ _ hlt
        · exact hb y hyl

/-- The descending sort of `get_fs_entries` is pairwise `entGe`. -/
theorem pairwise_sortEntriesDesc :
    ∀ l : List (List String), (sortEntriesDesc l).Pairwise entGe
  | [] => List.Pairwise.nil
  | a :: l => pairwise_insertEntryDesc a (sortEntriesDesc l) (pairwise_sortEntriesDesc l)

/-! ## Claim C1 — shutdown remount ladder and kill-all signals -/

/-- C1, counterexample: the claim states that when the two plain
remount-ro attempts fail and the forced unmount succeeds no `killall5 -9`
is sent, and that when all three fail it is sent exactly once.  On the
code, `remount_ro` itself sends `killall5 -9` after **every** failing
attempt, so the first scenario sends it twice and the second three
times. -/
theorem stop_system_final_counterexample :
    stop_system_final 1 1 0 = 2 ∧ stop_system_final 1 1 1 = 3 ∧
    ¬(stop_system_final 1 1 0 = 0 ∧ stop_system_final 1 1 1 = 1) := by
  decide

/-- C1, amended: in the final ladder of `stop_system`, each failing
attempt sends one `killall5 -9`: with the first two remount attempts
failing, the kill-all total is two when the forced unmount succeeds and
three when it also fails. -/
theorem stop_system_final_kill_counts (e1 e2 e3 : Nat)
    (h1 : e1 ≠ 0) (h2 : e2 ≠ 0) :
    (e3 = 0 → stop_system_final e1 e2 e3 = 2) ∧
    (e3 ≠ 0 → stop_system_final e1 e2 e3 = 3) := by
  unfold stop_system_final remount_ro
  constructor
  · intro h3
    simp [h1, h2, h3]
  · intro h3
    simp [h1, h2, h3]

/-- Witness for C1's amended theorem at the two concrete scenarios. -/
theorem stop_system_final_kill_counts_witness :
    stop_system_final 1 1 0 = 2 ∧ stop_system_final 1 1 1 = 3 :=
  ⟨(stop_system_final_kill_counts 1 1 0 (by decide) (by decide)).1 rfl,
   (stop_system_final_kill_counts 1 1 1 (by decide) (by decide)).2 (by decide)⟩

/-! ## Claim C2 — shutdown unmount ordering -/

/-- C2, counterexample: on mounts at `/data`, `/data/nested` and `/mnt`,
the descending mountpoint sort of `get_fs_entries` yields the attempt
order `/mnt`, `/data/nested`, `/data` — not the claimed
`/data/nested`, `/data`, `/mnt`. -/
theorem get_fs_entries_counterexample :
    (get_fs_entries threeM).map mountpointOf = ["/mnt", "/data/nested", "/data"] ∧
    (get_fs_entries threeM).map mountpointOf ≠ ["/data/nested", "/data", "/mnt"] := by
  decide

/-- C2, amended: on the three-mount example the unmount attempt order is
`/mnt`, `/data/nested`, `/data`; and in general every nested mount is
attempted before its parent, because `get_fs_entries` sorts the filtered
`/proc/mounts` entries by mountpoint descending: whenever the mountpoint
of the entry at position `i` properly extends the mountpoint of the entry
at position `j` (i.e. `i` is nested under `j`), then `i < j`. -/
theorem get_fs_entries_order :
    (get_fs_entries threeM).map mountpointOf = ["/mnt", "/data/nested", "/data"] ∧
    ∀ (pm : String) (i j : Nat)
      (hi : i < (get_fs_entries pm).length) (hj : j < (get_fs_entries pm).length)
      (t : List Char), t ≠ [] →
      (mountpointOf (get_fs_entries pm)[i]).data
        = (mountpointOf (get_fs_entries pm)[j]).data ++ t →
      i < j := by
  constructor
  · decide
  · intro pm i j hi hj t ht hnest
    have hpw : (get_fs_entries pm).Pairwise entGe := pairwise_sortEntriesDesc _
    rcases Nat.lt_trichotomy i j with h | h | h
    · exact h
    · exfalso
      subst h
      have hlen := congrArg List.length hnest
      rw [List.length_append] at hlen
      exact ht (List.eq_nil_of_length_eq_zero (by omega))
    · exfalso
      have hge : entGe (get_fs_entries pm)[j] (get_fs_entries pm)[i] :=
        List.pairwise_iff_getElem.mp hpw j i hj hi h
      unfold entGe at hge
      cases t with
      | nil => exact ht rfl
      | cons c t2 =>
          have hlt := pyStrLtL_append_cons
            (mountpointOf (get_fs_entries pm)[j]).data c t2
          rw [← hnest] at hlt
          rw [hge] at hlt
          exact Bool.false_ne_true hlt

/-- Witness for C2's amended theorem: in the three-mount example,
`/data/nested` (position 1) is nested under `/data` (position 2), and
indeed 1 < 2. -/
theorem get_fs_entries_order_witness :
    ((get_fs_entries threeM).map mountpointOf).getD 1 "" = "/data/nested" ∧
    ((get_fs_entries threeM).map mountpointOf).getD 2 "" = "/data" ∧
    (1 : Nat) < 2 :=
  ⟨by decide, by decide,
   get_fs_entries_order.2 threeM 1 2 (by decide) (by decide)
     "/nested".data (by decide) (by decide)⟩

/-! ## Claim C3 — root filesystem check exit-code policy -/

/-- C3: in `check_root_filesystem`, exit code 0 continues without any
rescue shell or reboot; exit codes 2 and 3 take the forced-reboot path
exactly once — warn, four beeps at one-second intervals, a warning, a
ten-second wait, a warning, then the hard reboot — and the outcome is the
terminal `rebooted` (control never returns); any other non-zero code
reports an error and invokes the rescue shell `sulogin`. -/
theorem check_root_filesystem_policy (ret : Nat) :
    (ret = 0 → check_root_filesystem ret = (.continued, [])) ∧
    (ret = 2 ∨ ret = 3 →
      (check_root_filesystem ret).1 = .rebooted ∧
      (check_root_filesystem ret).2
        = [Act.warn, Act.beep, Act.sleep 1, Act.beep, Act.sleep 1, Act.beep,
           Act.sleep 1, Act.beep, Act.sleep 1, Act.warn, Act.sleep 10,
           Act.warn, Act.reboot] ∧
      ((check_root_filesystem ret).2.count Act.reboot = 1 ∧
       (check_root_filesystem ret).2.count Act.sulogin = 0)) ∧
    (ret ≠ 0 → ret ≠ 2 → ret ≠ 3 →
      check_root_filesystem ret = (.rescue, [Act.error, Act.sulogin])) := by
  refine ⟨?_, ?_, ?_⟩
  · intro h; subst h; decide
  · rintro (h | h) <;> subst h <;> exact ⟨by decide, by decide, by decide, by decide⟩
  · intro h0 h2 h3
    simp [check_root_filesystem, h0, h2, h3]

/-- Witness for C3 at exit codes 0, 2 and 7. -/
theorem check_root_filesystem_policy_witness :
    check_root_filesystem 0 = (.continued, []) ∧
    (check_root_filesystem 2).1 = .rebooted ∧
    (check_root_filesystem 2).2.count Act.reboot = 1 ∧
    check_root_filesystem 7 = (.rescue, [Act.error, Act.sulogin]) :=
  ⟨(check_root_filesystem_policy 0).1 rfl,
   ((check_root_filesystem_policy 2).2.1 (Or.inl rfl)).1,
   ((check_root_filesystem_policy 2).2.1 (Or.inl rfl)).2.2.1,
   (check_root_filesystem_policy 7).2.2 (by decide) (by decide) (by decide)⟩

/-! ## Claim C4 — all-filesystems check exit-code policy -/

/-- C4: in `check_filesystems`, exit codes 2 and 3 only log a warning and
the sequence continues — no reboot, no rescue shell — observably
differing from `check_root_filesystem`, which reboots on those codes; any
other non-zero code reports an error and invokes the rescue shell. -/
theorem check_filesystems_policy (ret : Nat) :
    (ret = 2 ∨ ret = 3 →
      check_filesystems ret = (.continued, [Act.warn]) ∧
      ((check_filesystems ret).2.count Act.reboot = 0 ∧
       (check_filesystems ret).2.count Act.sulogin = 0) ∧
      (check_root_filesystem ret).1 = .rebooted ∧
      (check_filesystems ret).1 ≠ (check_root_filesystem ret).1) ∧
    (ret ≠ 0 → ¬(2 ≤ ret ∧ ret ≤ 3) →
      check_filesystems ret = (.rescue, [Act.error, Act.sulogin])) := by
  constructor
  · rintro (h | h) <;> subst h <;>
      exact ⟨by decide, ⟨by decide, by decide⟩, by decide, by decide⟩
  · intro h0 h23
    simp [check_filesystems, h0, h23]

/-- Witness for C4 at exit codes 3 and 7. -/
theorem check_filesystems_policy_witness :
    check_filesystems 3 = (.continued, [Act.warn]) ∧
    (check_root_filesystem 3).1 = .rebooted ∧
    check_filesystems 7 = (.rescue, [Act.error, Act.sulogin]) :=
  ⟨((check_filesystems_policy 3).1 (Or.inr rfl)).1,
   ((check_filesystems_policy 3).1 (Or.inr rfl)).2.2.1,
   (check_filesystems_policy 7).2 (by decide) (by decide)⟩

/-! ## Claim C5 — cgroup bootstrap fstab guard -/

/-- C5: with a cgroup mount line in fstab (and kernel support and sysfs
both present), `Cgroupfs.__init__` completes the bootstrap instead of
exiting: the guard compares the bound method `check_fstab` itself — not
its call result — with `True`, so `sys.exit(-1)` is unreachable.
Moreover even the uncalled `check_fstab` misclassifies: for an fstab
whose only line starts with `cgroup` it returns `False` (the
`line.find("cgroup")` truthiness test rejects a match at offset 0), while
for a line not containing `cgroup` at all it returns `True` (`find`
yields `-1`, which is truthy). -/
theorem cgroupfs_fstab_guard_dead :
    cgroupfsInit [fstabCgroupLine] true true = .completed ∧
    cgroupfsInit [fstabCgroupLine] true true ≠ .exitedFstab ∧
    check_fstab [fstabCgroupLine] = false ∧
    check_fstab ["/dev/sda1 / ext4 defaults 0 1"] = true := by
  decide

/-! ## Claim C6 — option-map precedence -/

/-- C6, counterexample: the key `"in"` is a substring of `"thin"`, so the
source's cmdline-key filter `_k not in ("thin")` silently drops it: with
the config file setting `in=y` and the kernel cmdline setting `in:x`, the
resolved value is the config file's `"y"`, not the cmdline's `"x"`. -/
theorem mergedOptions_counterexample :
    mergedOptions cfgWithIn cmdWithIn false false "in" = some (.vStr "y") ∧
    mergedOptions cfgWithIn cmdWithIn false false "in" ≠ some (.vStr "x") := by
  decide

/-- C6, amended: for every option key that is not a substring of `"thin"`
and is neither `"live"` nor `"forcefsck"` (those two are recomputed after
the config merge), the resolved value follows the precedence
kernel-cmdline > config file > built-in default, and a bare cmdline flag
(empty value) resolves to boolean true — as the last conjunct shows
end-to-end for `mudur=language:tr,safe` parsed by `get_kernel_option`. -/
theorem mergedOptions_precedence (cfg cmd : String → Option String)
    (lm st : Bool) (k : String)
    (hthin : containsSub k.data "thin".data = false)
    (hlive : k ≠ "live") (hff : k ≠ "forcefsck") :
    (∀ v, cmd k = some v →
      mergedOptions cfg cmd lm st k
        = some (if v ≠ "" then PyVal.vStr v else PyVal.vBool true)) ∧
    (cmd k = none → ∀ v, cfg k = some v →
      mergedOptions cfg cmd lm st k = some (.vStr v)) ∧
    (cmd k = none → cfg k = none →
      mergedOptions cfg cmd lm st k = mudurDefaults k) ∧
    mergedOptions (fun _ => none)
      (get_kernel_option ["ro", "mudur=language:tr,safe"] "mudur")
      false false "safe" = some (.vBool true) := by
  refine ⟨?_, ?_, ?_, by decide⟩
  · intro v hv
    simp [mergedOptions, hv, hthin]
  · intro hc v hv
    simp [mergedOptions, hc, hv, hlive, hff]
  · intro hc hv
    simp [mergedOptions, hc, hv, hlive, hff]

/-- Witness for C6's amended theorem at the key `"clock"`: the cmdline
value `UTC` overrides the config file's `utc`, which overrides the
built-in default `local`. -/
theorem mergedOptions_precedence_witness :
    mergedOptions cfgClock cmdClock false false "clock" = some (.vStr "UTC") ∧
    mergedOptions cfgClock (fun _ => none) false false "clock" = some (.vStr "utc") ∧
    mergedOptions (fun _ => none) (fun _ => none) false false "clock"
      = some (.vStr "local") :=
  ⟨((mergedOptions_precedence cfgClock cmdClock false false "clock"
      (by decide) (by decide) (by decide)).1 "UTC" rfl).trans (by decide),
   ((mergedOptions_precedence cfgClock (fun _ => none) false false "clock"
      (by decide) (by decide) (by decide)).2.1 rfl "utc" rfl),
   ((mergedOptions_precedence (fun _ => none) (fun _ => none) false false "clock"
      (by decide) (by decide) (by decide)).2.2.1 rfl rfl).trans (by decide)⟩

/-! ## Claim C7 — forcefsck sentinel -/

/-- C7: whatever the config file says (and for any kernel cmdline not
carrying a `forcefsck` fragment of its own), the resolved `forcefsck`
option is exactly the boolean recording whether the `/forcefsck` sentinel
file exists. -/
theorem forcefsck_resolution (cfg cmd : String → Option String)
    (lm st : Bool) (h : cmd "forcefsck" = none) :
    mergedOptions cfg cmd lm st "forcefsck" = some (.vBool st) := by
  simp [mergedOptions, h]

/-- Witness for C7: the config file sets `forcefsck=yes`, the sentinel
file does not exist, and the resolved value is `False`. -/
theorem forcefsck_resolution_witness :
    mergedOptions cfgForceYes (fun _ => none) false false "forcefsck"
      = some (.vBool false) ∧
    mergedOptions cfgForceYes (fun _ => none) false true "forcefsck"
      = some (.vBool true) :=
  ⟨forcefsck_resolution cfgForceYes (fun _ => none) false false rfl,
   forcefsck_resolution cfgForceYes (fun _ => none) false true rfl⟩

/-! ## Claim C8 — idempotence of the controller-mount step -/

/-- Helper: on a state where every `enabled == 1` controller is already
mounted, the controller-mount loop issues no mount command and leaves the
state unchanged. -/
theorem mountAllControllers_fully_mounted :
    ∀ (cs : List (Controller × Bool)) (mounted : List String),
      (∀ p ∈ cs, p.1.enabled = 1 → mounted.contains p.1.subsysname = true) →
      mountAllControllers cs mounted = (mounted, 0)
  | [], _, _ => rfl
  | (c, ok) :: rest, mounted, hfull => by
      have hstep : c.mountStep mounted ok = (mounted, 0) := by
        by_cases he : c.enabled = 1
        · have hm := hfull (c, ok) (List.mem_cons_self _ _) he
          have hm2 : c.subsysname ∈ mounted := by simpa using hm
          simp [Controller.mountStep, he, hm2]
        · simp [Controller.mountStep, he]
      have hrest := mountAllControllers_fully_mounted rest mounted
        (fun p hp h1 => hfull p (List.mem_cons_of_mem _ hp) h1)
      simp [mountAllControllers, hstep, hrest]

/-- C8: running the controller-mount step on an already-fully-mounted
hierarchy performs zero mount operations; a controller mounts only when
`enabled == 1` and its name is not already a mountpoint under the cgroup
root; and a controller with `enabled == 0` never mounts on any run. -/
theorem controller_mount_idempotent (cs : List (Controller × Bool))
    (mounted : List String)
    (hfull : ∀ p ∈ cs, p.1.enabled = 1 → mounted.contains p.1.subsysname = true) :
    mountAllControllers cs mounted = (mounted, 0) ∧
    (∀ (c : Controller) (m : List String) (ok : Bool),
      c.enabled = 0 → c.mountStep m ok = (m, 0)) ∧
    (∀ (c : Controller) (m : List String) (ok : Bool),
      (c.mountStep m ok).2 ≠ 0 →
      c.enabled = 1 ∧ m.contains c.subsysname = false) := by
  refine ⟨mountAllControllers_fully_mounted cs mounted hfull, ?_, ?_⟩
  · intro c m ok h
    simp [Controller.mountStep, h]
  · intro c m ok h
    unfold Controller.mountStep at h
    split_ifs at h with h1 h2 <;> simp_all

/-- Witness for C8: a second run over a hierarchy where the only enabled
controller `cpu` is already mounted performs zero mounts. -/
theorem controller_mount_idempotent_witness :
    mountAllControllers [(ctrlCpu, true), (ctrlFreezer, true)] ["cpu", "memory"]
      = (["cpu", "memory"], 0) :=
  (controller_mount_idempotent [(ctrlCpu, true), (ctrlFreezer, true)]
    ["cpu", "memory"] (by decide)).1

/-! ## Claim C9 — language fallback and keymap default -/

/-- C9: a configured language outside the static table resolves to `en`;
whenever no keymap was explicitly configured (Python-falsy stored value),
the resolved keymap is the table keymap of the resolved language — so for
an unsupported language the keymap resolves to the table's `en` keymap,
`us`. -/
theorem language_fallback :
    (∀ lang, LANGUAGES lang = none → normalizedLanguage lang = "en") ∧
    (∀ (lang : String) (km : Option String), km = none ∨ km = some "" →
      resolvedKeymap km lang = (LANGUAGES (normalizedLanguage lang)).map (·.keymap)) ∧
    (resolvedKeymap none "xx" = some "us" ∧
     (LANGUAGES "en").map (·.keymap) = some "us") := by
  refine ⟨?_, ?_, by decide, by decide⟩
  · intro lang h
    simp [normalizedLanguage, h]
  · intro lang km h
    unfold resolvedKeymap
    rw [if_pos h]

/-- Witness for C9 at the unsupported language `xx`. -/
theorem language_fallback_witness :
    normalizedLanguage "xx" = "en" ∧ resolvedKeymap (some "") "xx" = some "us" :=
  ⟨language_fallback.1 "xx" (by decide),
   (language_fallback.2.1 "xx" (some "") (Or.inr rfl)).trans (by decide)⟩

/-! ## Claim C10 — totality of `load_file` -/

/-- C10: `load_file` is total over file states — an unopenable file
(`IOError`) yields `""`, and a readable file yields its content with
empty lines and `#`-led lines removed, joined by newlines — i.e. it
coincides everywhere with the function described by the specification,
so every caller receives a string even for a missing file. -/
theorem load_file_total (file : Option String) :
    load_file file = loadFileSpec file ∧ load_file none = "" := by
  constructor
  · cases file with
    | none => rfl
    | some data => simp only [load_file, loadFileSpec, Bool.not_or]
  · rfl

end Mudur
